import Mathlib

/-!
Shallow embedding of the `dns_cache` repository (a caching forwarding DNS
resolver written in Python: `dns_packet.py`, `dns_cache.py`, `dns_server.py`).

Bytes are modelled as `List Nat` (each entry a byte value below 256), Python
`Decimal` values as `ℚ`, wall-clock reads of `time()` as an explicit `now`
parameter, and fallible Python code (struct packing/unpacking errors,
`AttributeError`, `KeyError`, `IndexError`) as `Option`-returning functions
where `none` marks that the Python original raises.
-/

namespace DnsCache

/-- Wire bytes: a list of byte values (each below 256). -/
abbrev Bytes := List Nat

/-- `struct.pack('>H', n)`: big-endian 16-bit word (meaningful for `n < 2^16`,
range-checked at each use site as `struct.pack` raises outside the range). -/
def pack16 (n : Nat) : Bytes := [n / 256, n % 256]

/-- `struct.pack('>I', n)`: big-endian 32-bit word (meaningful for `n < 2^32`). -/
def pack32 (n : Nat) : Bytes :=
  [n / 16777216, n / 65536 % 256, n / 256 % 256, n % 256]

/-- Python `int()` applied to a `Decimal`: truncation toward zero. -/
def pyInt (q : ℚ) : Int := if 0 ≤ q then Int.floor q else -(Int.floor (-q))

/-- Python `bytes.find(b)`: index of the first occurrence, `-1` when absent. -/
def pyFind (data : Bytes) (b : Nat) : Int :=
  match data.findIdx? (fun x => x == b) with
  | some i => (i : Int)
  | none => -1

/-! ## `dns_packet.Header` -/

/-- The decoded 12-byte DNS header as stored by `Header.__init__`
(`dns_packet.py`): the individual flag fields plus the recomposed
16-bit `option` flag word and the four section counts. -/
structure Header where
  id : Nat
  query : Nat
  opcode : Nat
  auth_ans : Nat
  trunc : Nat
  recurs_desired : Nat
  recurs_available : Nat
  z : Nat
  rcode : Nat
  option : Nat
  qdcount : Nat
  ancount : Nat
  nscount : Nat
  arcount : Nat
deriving DecidableEq, Repr

/-- `Header.__init__` (`dns_packet.py` lines 22-41), arguments in the Python
positional order with the keyword-only defaults made explicit.  The flag word
is recomposed as
`(QR<<15)|(OPCODE<<11)|(AA<<10)|(TC<<9)|(RD<<8)|(RA<<7)|(Z<<4)|RCODE`. -/
def Header.init (id_p opcode authority_answer truncation recursion_desired
    rcode qdcount ancount nscount arcount recursion_available z query : Nat) :
    Header :=
  { id := id_p
    query := query
    opcode := opcode
    auth_ans := authority_answer
    trunc := truncation
    recurs_desired := recursion_desired
    recurs_available := recursion_available
    z := z
    rcode := rcode
    option := (query <<< 15) ||| (opcode <<< 11) ||| (authority_answer <<< 10) |||
      (truncation <<< 9) ||| (recursion_desired <<< 8) |||
      (recursion_available <<< 7) ||| (z <<< 4) ||| rcode
    qdcount := qdcount
    ancount := ancount
    nscount := nscount
    arcount := arcount }

/-- `Header.to_binary`: `pack('>HHHHHH', id, option, qdcount, ancount, nscount,
arcount)`.  `struct.pack` raises when a field does not fit 16 bits, modelled by
the range guard. -/
def Header.to_binary (h : Header) : Option Bytes :=
  if h.id < 65536 ∧ h.option < 65536 ∧ h.qdcount < 65536 ∧ h.ancount < 65536 ∧
      h.nscount < 65536 ∧ h.arcount < 65536 then
    some (pack16 h.id ++ pack16 h.option ++ pack16 h.qdcount ++
      pack16 h.ancount ++ pack16 h.nscount ++ pack16 h.arcount)
  else none

/-- `Header.from_binary`: `unpack('>HHHHHH', data[:12])` succeeds exactly when
`data` has at least 12 bytes (the slice then has exactly 12); on fewer bytes the
`struct.error` is swallowed by `except error: pass` after which the unbound
locals raise, so no `Header` is returned (`none`).  The flag word is split with
the source's masks: every field below QR uses `& 0xf`, including the
single-bit flags. -/
def Header.from_binary (data : Bytes) : Option Header :=
  if data.length < 12 then none
  else
    let b := fun i => data.getD i 0
    let id_p := b 0 * 256 + b 1
    let option := b 2 * 256 + b 3
    let qdcount := b 4 * 256 + b 5
    let ancount := b 6 * 256 + b 7
    let nscount := b 8 * 256 + b 9
    let arcount := b 10 * 256 + b 11
    some (Header.init id_p ((option >>> 11) &&& 15) ((option >>> 10) &&& 15)
      ((option >>> 9) &&& 15) ((option >>> 8) &&& 15) (option &&& 15)
      qdcount ancount nscount arcount
      ((option >>> 7) &&& 15) ((option >>> 4) &&& 15) (option >>> 15))

/-! ## `dns_packet.Question` -/

/-- A DNS question: raw wire bytes of the qname plus the numeric type and
class (`Question.__init__`). -/
structure Question where
  name : Bytes
  rec_type : Nat
  rec_class : Nat
deriving DecidableEq, Repr

/-- `Question.__eq__` as written in the source: the second and third
comparisons compare `self` with `self`. -/
def Question.eqPy (self other : Question) : Bool :=
  self.name == other.name && self.rec_type == self.rec_type &&
    self.rec_class == self.rec_class

/-- `Question.__hash__`: `31 * ((hash(name) + hash(rec_type)) ** 2 +
hash(rec_class)) ** 3`, with the opaque Python hash of the name bytes taken as
a parameter `hname` (Python small-integer hashes are the integers themselves). -/
def Question.hashPy (hname : Int) (q : Question) : Int :=
  31 * ((hname + q.rec_type) ^ 2 + q.rec_class) ^ 3

/-- `Question.to_binary`: `name + pack('>HH', rec_type, rec_class)`, with the
`struct.pack` 16-bit range check. -/
def Question.to_binary (q : Question) : Option Bytes :=
  if q.rec_type < 65536 ∧ q.rec_class < 65536 then
    some (q.name ++ pack16 q.rec_type ++ pack16 q.rec_class)
  else none

/-- `Question.from_binary`: the name is `data[:data.find(0x00) + 1]` and the
remaining bytes must unpack as `'>HH'`, which requires exactly four of them. -/
def Question.from_binary (data : Bytes) : Option Question :=
  let name := data.take (pyFind data 0 + 1).toNat
  match data.drop name.length with
  | [a, b, c, d] => some ⟨name, a * 256 + b, c * 256 + d⟩
  | _ => none

/-! ## `dns_packet.ResourceRecord` -/

/-- A resource record as stored by `ResourceRecord.__init__`.  Attributes that
Python only sets conditionally (`ttl` only when the constructor argument is
truthy, `last_update` only for non-bad records) or that are `None` for bad
records are modelled as `Option`; reading an absent attribute raises
`AttributeError` in Python, which callers surface as `none`. -/
structure ResourceRecord where
  bin_name : Option Bytes
  r_type : Option Nat
  r_class : Option Nat
  ttl : Option ℚ
  rdlen : Option Nat
  rdata : Option Bytes
  last_update : Option ℚ
  section_type : Option String
  bad_data : Bool
  binary_bad_data : Option Bytes
deriving DecidableEq, Repr

/-- `ResourceRecord.__init__` (`dns_packet.py` lines 112-126): `self.ttl` is
set only when the `ttl` argument is truthy (not `None` and nonzero), and
`self.last_update` is set to the current time only when the record is not bad. -/
def ResourceRecord.init (binary_name : Option Bytes) (r_type r_class : Option Nat)
    (ttl : Option ℚ) (rdlen : Option Nat) (rdata : Option Bytes)
    (section_type : Option String) (bad_data : Bool)
    (binary_bad_data : Option Bytes) (now : ℚ) : ResourceRecord :=
  { bin_name := binary_name
    r_type := r_type
    r_class := r_class
    ttl := ttl.bind (fun t => if t = 0 then none else some t)
    rdlen := rdlen
    rdata := rdata
    last_update := if bad_data then none else some now
    section_type := section_type
    bad_data := bad_data
    binary_bad_data := binary_bad_data }

/-- `ResourceRecord.from_binary`: `unpack('>HHIH', data[len_name:len_name+10])`
succeeds exactly when that slice has ten bytes; then the rdata is the next
`rdlen` bytes (a short slice is not an error in Python).  On unpack failure the
record is marked `bad_data` with the whole fragment preserved. -/
def ResourceRecord.from_binary (data : Bytes) (len_name : Nat)
    (section_type : String) (now : ℚ) : ResourceRecord :=
  let rest := data.drop len_name
  if rest.length < 10 then
    ResourceRecord.init none none none none none none none true (some data) now
  else
    let b := fun i => rest.getD i 0
    let type_r := b 0 * 256 + b 1
    let class_r := b 2 * 256 + b 3
    let ttl_r := ((b 4 * 256 + b 5) * 256 + b 6) * 256 + b 7
    let rdlen := b 8 * 256 + b 9
    let rdata := (rest.drop 10).take rdlen
    ResourceRecord.init (some (data.take len_name)) (some type_r) (some class_r)
      (some (ttl_r : ℚ)) (some rdlen) (some rdata) (some section_type)
      false none now

/-- `ResourceRecord.length`: `len(bin_name) + 10 + len(rdata)`; raises
(`none`) when either attribute is `None`, as it is on a bad record. -/
def ResourceRecord.length (r : ResourceRecord) : Option Nat :=
  match r.bin_name, r.rdata with
  | some nm, some rd => some (nm.length + 10 + rd.length)
  | _, _ => none

/-- `ResourceRecord.to_binary`: a non-bad record re-emits as
`bin_name + pack('>HHIH', r_type, r_class, int(ttl), rdlen) + rdata` (with the
`struct.pack` range checks and `int()` truncation of the `Decimal` TTL); a bad
record re-emits its preserved original bytes. -/
def ResourceRecord.to_binary (r : ResourceRecord) : Option Bytes :=
  if r.bad_data then r.binary_bad_data
  else
    match r.bin_name, r.r_type, r.r_class, r.ttl, r.rdlen, r.rdata with
    | some nm, some t, some c, some tt, some rl, some rd =>
      if 0 ≤ pyInt tt ∧ pyInt tt < 4294967296 ∧ t < 65536 ∧ c < 65536 ∧
          rl < 65536 then
        some (nm ++ pack16 t ++ pack16 c ++ pack32 (pyInt tt).toNat ++
          pack16 rl ++ rd)
      else none
    | _, _, _, _, _, _ => none

/-- `ResourceRecord.is_obsolete`: `ttl - (now - last_update) < 2`, with the
`AttributeError` on a missing `ttl` or `last_update` swallowed into `False`. -/
def ResourceRecord.is_obsolete (r : ResourceRecord) (now : ℚ) : Bool :=
  match r.ttl, r.last_update with
  | some t, some lu => decide (t - (now - lu) < 2)
  | _, _ => false

/-- `ResourceRecord.change_ttl`: unconditionally overwrite `ttl` and
`last_update`. -/
def ResourceRecord.change_ttl (r : ResourceRecord) (ttl last_update : ℚ) :
    ResourceRecord :=
  { r with ttl := some ttl, last_update := some last_update }

/-! ## `dns_cache.DNSCache` -/

/-- The cache dictionary `self.cache`, keyed by `Question`.  Modelled as a
function from keys to stored record lists (`none` meaning the key is absent,
on which Python's `self.cache[key]` raises `KeyError`).  CPython dictionary
key identity additionally consults `Question.__hash__`, which separates any
two keys this model separates (see
`question_eq_ignores_qtype_and_qclass`). -/
def DNSCache := Question → Option (List ResourceRecord)

/-- `DNSCache.__init__`: the empty dictionary. -/
def DNSCache.empty : DNSCache := fun _ => none

/-- `DNSCache.put`: `self.cache[key] = list_value` (wholesale replacement). -/
def DNSCache.put (cache : DNSCache) (key : Question)
    (list_value : List ResourceRecord) : DNSCache :=
  fun k => if k = key then some list_value else cache k

/-- One iteration of the loop body of `DNSCache.get` on a single record: a
non-bad record is aged with `change_ttl(ttl - (now - last_update), now)`;
reading a missing `ttl`/`last_update` attribute raises (`none`); a bad record
is left untouched. -/
def ageRecord (r : ResourceRecord) (now : ℚ) : Option ResourceRecord :=
  if r.bad_data then some r
  else
    match r.ttl, r.last_update with
    | some t, some lu => some (r.change_ttl (t - (now - lu)) now)
    | _, _ => none

/-- The aging loop of `DNSCache.get` over the whole stored list (in Python the
records are mutated in place, so the resulting list is also what the cache
then holds). -/
def ageRecords (rs : List ResourceRecord) (now : ℚ) :
    Option (List ResourceRecord) :=
  match rs with
  | [] => some []
  | r :: rest =>
    match ageRecord r now, ageRecords rest now with
    | some r2, some rest2 => some (r2 :: rest2)
    | _, _ => none

/-- `DNSCache.get`: ages every non-bad record down to `now` and returns the
record list together with the per-section counts of the non-bad records
(section tags `'AN'`, `'NS'`, `'AR'`); bad records are skipped by both the
aging and the counting. -/
def DNSCache.get (cache : DNSCache) (key : Question) (now : ℚ) :
    Option (List ResourceRecord × Nat × Nat × Nat) :=
  match cache key with
  | none => none
  | some records =>
    match ageRecords records now with
    | none => none
    | some aged =>
      some (aged,
        records.countP (fun r => !r.bad_data && (r.section_type == some "AN")),
        records.countP (fun r => !r.bad_data && (r.section_type == some "NS")),
        records.countP (fun r => !r.bad_data && (r.section_type == some "AR")))

/-! ## `dns_packet.DNSPacket` -/

/-- Python `bytes.split(b'\xc0\x0c')`: split at every non-overlapping
occurrence of the two-byte pointer, left to right. -/
def splitPtr : Bytes → List Bytes
  | [] => [[]]
  | 192 :: 12 :: rest => [] :: splitPtr rest
  | x :: rest =>
    match splitPtr rest with
    | [] => [[x]]
    | y :: ys => (x :: y) :: ys

/-- `list(map(lambda x: pointer + x, past_request.split(pointer)))[1:]`: each
fragment after the first split piece, with the pointer re-prepended. -/
def fragmentsOf (past_request : Bytes) : List Bytes :=
  ((splitPtr past_request).map (fun x => 192 :: 12 :: x)).drop 1

/-- The record-queue construction inside `DNSPacket.from_binary`
(`dns_packet.py` lines 191-201): split the post-question bytes at the pointer;
when fragments exist, measure only the LAST fragment with
`ResourceRecord.from_binary(..., 2, 'AN').length()` (which raises — `none` —
when that fragment parsed as bad data) and, if the computed length is shorter
than the fragment, trim it and append the tail as one extra record; with no
fragments the whole remainder is the single queue entry. -/
def recordQueue (past_request : Bytes) (now : ℚ) : Option (List Bytes) :=
  let rs := fragmentsOf past_request
  if rs.isEmpty then some [past_request]
  else
    match (ResourceRecord.from_binary (rs.getLastD []) 2 "AN" now).length with
    | none => none
    | some len_last =>
      if len_last < (rs.getLastD []).length then
        some (rs.dropLast ++ [(rs.getLastD []).take len_last,
          (rs.getLastD []).drop len_last])
      else some rs

/-- `DNSPacket.pick_resource_records`: pop `count` fragments off the front of
the shared queue and decode each with a 2-byte name length and the given
section tag; popping an empty queue raises `IndexError` (`none`).  Returns the
decoded records together with the remaining queue. -/
def DNSPacket.pick_resource_records (count : Nat) (r_type : String)
    (queue : List Bytes) (now : ℚ) :
    Option (List ResourceRecord × List Bytes) :=
  match count, queue with
  | 0, q => some ([], q)
  | _ + 1, [] => none
  | n + 1, a :: q =>
    match DNSPacket.pick_resource_records n r_type q now with
    | none => none
    | some (rs, q2) =>
      some (ResourceRecord.from_binary a 2 r_type now :: rs, q2)

/-- A decoded DNS message. -/
structure DNSPacket where
  header : Header
  question : Question
  answers : List ResourceRecord
  authorities : List ResourceRecord
  additionals : List ResourceRecord
deriving DecidableEq, Repr

/-- `DNSPacket.from_binary`: decode the header from the first 12 bytes, the
question from offset 12 up to and including the first zero byte plus four
bytes of qtype/qclass, build the record queue from the remainder, and consume
ANCOUNT, then NSCOUNT, then ARCOUNT fragments from it.  Any exception along
the way (short header, malformed question, raising queue fixup, queue
underflow) propagates (`none`). -/
def DNSPacket.from_binary (request : Bytes) (now : ℚ) : Option DNSPacket :=
  let bin_header := request.take 12
  let question_b := (request.drop 12).take (pyFind (request.drop 12) 0 + 5).toNat
  match Header.from_binary bin_header with
  | none => none
  | some header =>
    match Question.from_binary question_b with
    | none => none
    | some question =>
      let past_request := request.drop (bin_header.length + question_b.length)
      match recordQueue past_request now with
      | none => none
      | some q0 =>
        match DNSPacket.pick_resource_records header.ancount "AN" q0 now with
        | none => none
        | some (answers, q1) =>
          match DNSPacket.pick_resource_records header.nscount "NS" q1 now with
          | none => none
          | some (authorities, q2) =>
            match DNSPacket.pick_resource_records header.arcount "AR" q2 now with
            | none => none
            | some (additionals, _) =>
              some ⟨header, question, answers, authorities, additionals⟩

/-! ## `dns_server.DNSServer` -/

/-- The header built inline by `DNSServer.build_error_message`: the request's
id, opcode and RD copied, `QR = 1`, `AA = TC = 0`, `RA = 1`, `Z = 0`,
`RCODE = 2`, all four counts zero. -/
def DNSServer.build_error_header (req_packet : DNSPacket) : Header :=
  Header.init req_packet.header.id req_packet.header.opcode 0 0
    req_packet.header.recurs_desired 2 0 0 0 0 1 0 1

/-- `DNSServer.build_error_message`: the error header's bytes followed by the
re-emitted question bytes. -/
def DNSServer.build_error_message (req_packet : DNSPacket) : Option Bytes :=
  match (DNSServer.build_error_header req_packet).to_binary with
  | none => none
  | some hb =>
    match req_packet.question.to_binary with
    | none => none
    | some qb => some (hb ++ qb)

/-- `DNSServer.put_in_cache`: store the response's records (answers, then
authorities, then additionals) under its question key. -/
def DNSServer.put_in_cache (cache : DNSCache) (dns_packet : DNSPacket) :
    DNSCache :=
  DNSCache.put cache dns_packet.question
    (dns_packet.answers ++ dns_packet.authorities ++ dns_packet.additionals)

/-- `DNSServer.update_cache`, with the forwarder's result
(`appeal_to_forward` returns the upstream bytes and an error code — `2` with
empty bytes after the 3-second timeout) passed in as data: on error code 0 the
response is decoded and stored; otherwise the cache is left untouched and
`(None, error_code)` is returned.  The result is the new cache together with
the returned pair. -/
def DNSServer.update_cache (cache : DNSCache) (dns_response : Bytes)
    (error_code : Nat) (now : ℚ) : Option (DNSCache × Option Bytes × Nat) :=
  if error_code = 0 then
    match DNSPacket.from_binary dns_response now with
    | none => none
    | some resp_packet =>
      some (DNSServer.put_in_cache cache resp_packet, some dns_response,
        error_code)
  else some (cache, none, error_code)

/-- A concrete fresh answer record (ttl 60 s, stored at time 4) used as a
witness input. -/
def witGoodRecord : ResourceRecord :=
  ResourceRecord.init (some [192, 12]) (some 1) (some 1) (some 60) (some 1)
    (some [9]) (some "AN") false none 4

/-- A concrete bad (unparsable) record used as a witness input. -/
def witBadRecord : ResourceRecord :=
  ResourceRecord.init none none none none none none none true (some [5, 6]) 4

/-- A concrete question key used as a witness input. -/
def witKey : Question := ⟨[3, 97, 0], 1, 1⟩

/-- A concrete one-entry cache used as a witness input. -/
def witCache : DNSCache :=
  DNSCache.put DNSCache.empty witKey [witGoodRecord, witBadRecord]

/-- A concrete record fragment with two trailing garbage bytes beyond its
computed record length: pointer, type 1, class 1, ttl 100, rdlen 1, one rdata
byte, then the excess `[7, 7]`. -/
def excessFragment : Bytes :=
  [192, 12, 0, 1, 0, 1, 0, 0, 0, 100, 0, 1, 9, 7, 7]

/-- A concrete exactly-sized record fragment: pointer, type 1, class 1,
ttl 100, rdlen 0. -/
def exactFragment : Bytes := [192, 12, 0, 1, 0, 1, 0, 0, 0, 100, 0, 0]

/-- Post-question bytes consisting of the excess-carrying fragment followed by
the exactly-sized one. -/
def excessThenExact : Bytes := excessFragment ++ exactFragment

/-- A concrete decoded client request (id 0x1234, RD = 1, question
`example.com A IN`) used as a witness input. -/
def errorReqPacket : DNSPacket :=
  ⟨Header.init 4660 0 0 0 1 0 1 0 0 0 0 0 0,
   ⟨[7, 101, 120, 97, 109, 112, 108, 101, 3, 99, 111, 109, 0], 1, 1⟩,
   [], [], []⟩

end DnsCache

namespace DnsCache

/-! ## Theorems -/

/-- Helper: the aging loop succeeds on a list whose non-bad records all carry
`ttl` and `last_update`, and relates input and output records pointwise. -/
theorem ageRecords_total (now : ℚ) (L : List ResourceRecord)
    (hgood : ∀ r ∈ L, r.bad_data = false → r.ttl.isSome ∧ r.last_update.isSome) :
    ∃ L2, ageRecords L now = some L2 ∧
      List.Forall₂ (fun r r2 =>
        (r.bad_data = true ∧ r2 = r) ∨
        (r.bad_data = false ∧ ∃ t lu, r.ttl = some t ∧ r.last_update = some lu ∧
          r2 = r.change_ttl (t - (now - lu)) now)) L L2 := by
  induction L with
  | nil => exact ⟨[], rfl, List.Forall₂.nil⟩
  | cons r rest ih =>
    obtain ⟨L2, hL2, hfa⟩ := ih (fun x hx => hgood x (List.mem_cons_of_mem r hx))
    by_cases hbad : r.bad_data
    · refine ⟨r :: L2, ?_, List.Forall₂.cons (Or.inl ⟨hbad, rfl⟩) hfa⟩
      simp [ageRecords, ageRecord, hbad, hL2]
    · obtain ⟨ht, hlu⟩ := hgood r (List.mem_cons_self r rest) (by simpa using hbad)
      obtain ⟨t, htt⟩ := Option.isSome_iff_exists.mp ht
      obtain ⟨lu, hll⟩ := Option.isSome_iff_exists.mp hlu
      refine ⟨r.change_ttl (t - (now - lu)) now :: L2, ?_,
        List.Forall₂.cons (Or.inr ⟨by simpa using hbad, t, lu, htt, hll, rfl⟩) hfa⟩
      simp [ageRecords, ageRecord, hbad, htt, hll, hL2]

/-- C4 (status: confirmed): reading a key whose list is `L` (with every
non-bad record carrying its `ttl` and `last_update`) at time `now` returns the
list with each non-bad record re-timed to `ttl - (now - last_update)` and
`last_update = now`, bad records untouched, together with the counts of
non-bad records tagged `'AN'`, `'NS'`, `'AR'`; bad records are excluded from
every count but stay in the returned list. -/
theorem cache_get_ages_and_counts (cache : DNSCache) (key : Question)
    (L : List ResourceRecord) (now : ℚ) (hkey : cache key = some L)
    (hgood : ∀ r ∈ L, r.bad_data = false → r.ttl.isSome ∧ r.last_update.isSome) :
    ∃ L2, DNSCache.get cache key now =
        some (L2,
          L.countP (fun r => !r.bad_data && (r.section_type == some "AN")),
          L.countP (fun r => !r.bad_data && (r.section_type == some "NS")),
          L.countP (fun r => !r.bad_data && (r.section_type == some "AR"))) ∧
      List.Forall₂ (fun r r2 =>
        (r.bad_data = true ∧ r2 = r) ∨
        (r.bad_data = false ∧ ∃ t lu, r.ttl = some t ∧ r.last_update = some lu ∧
          r2 = r.change_ttl (t - (now - lu)) now)) L L2 := by
  obtain ⟨L2, hL2, hfa⟩ := ageRecords_total now L hgood
  exact ⟨L2, by simp [DNSCache.get, hkey, hL2], hfa⟩

/-- Witness for C4: reading the one-key cache holding a fresh `'AN'` record and
a bad record at time 10 succeeds and reports counts `(1, 0, 0)` — the bad
record is not counted but is still subject to the returned-list relation. -/
theorem cache_get_ages_and_counts_witness :
    ∃ L2, DNSCache.get witCache witKey 10 = some (L2, 1, 0, 0) ∧
      List.Forall₂ (fun r r2 =>
        (r.bad_data = true ∧ r2 = r) ∨
        (r.bad_data = false ∧ ∃ t lu, r.ttl = some t ∧ r.last_update = some lu ∧
          r2 = r.change_ttl (t - (10 - lu)) 10))
        [witGoodRecord, witBadRecord] L2 := by
  have h := cache_get_ages_and_counts witCache witKey [witGoodRecord, witBadRecord]
    10 (by simp [witCache, DNSCache.put]) ?hgood
  case hgood =>
    intro r hr hbad
    simp only [List.mem_cons, List.not_mem_nil, or_false] at hr
    rcases hr with rfl | rfl
    · constructor <;> norm_num [witGoodRecord, ResourceRecord.init]
    · simp [witBadRecord, ResourceRecord.init] at hbad
  obtain ⟨L2, hget, hfa⟩ := h
  refine ⟨L2, ?_, hfa⟩
  rw [hget]
  norm_num [witGoodRecord, witBadRecord, ResourceRecord.init, List.countP_cons]
  exact ⟨by decide, by decide⟩

/-- C10 (status: confirmed): a record decoded from wire bytes whose 32-bit TTL
field is zero is non-bad but never receives a `ttl` attribute (the constructor
only assigns it for a truthy value).  Consequently `is_obsolete` on it returns
`false` (even though its residual TTL, zero minus any elapsed time, is below
2 s), and `DNSCache.get` on a key holding such a record raises an
`AttributeError` (`none`) instead of returning a result. -/
theorem zero_wire_ttl_record_has_no_ttl_and_breaks_get (data tail : Bytes)
    (len_name : Nat) (st : String) (now now2 : ℚ) (key : Question)
    (t1 t2 c1 c2 l1 l2 : Nat)
    (hdec : data.drop len_name =
      t1 :: t2 :: c1 :: c2 :: 0 :: 0 :: 0 :: 0 :: l1 :: l2 :: tail) :
    (ResourceRecord.from_binary data len_name st now).bad_data = false ∧
    (ResourceRecord.from_binary data len_name st now).ttl = none ∧
    (ResourceRecord.from_binary data len_name st now).is_obsolete now2 = false ∧
    DNSCache.get (DNSCache.put DNSCache.empty key
      [ResourceRecord.from_binary data len_name st now]) key now2 = none := by
  have hR : ResourceRecord.from_binary data len_name st now =
      ResourceRecord.init (some (data.take len_name)) (some (t1 * 256 + t2))
        (some (c1 * 256 + c2)) (some 0) (some (l1 * 256 + l2))
        (some (tail.take (l1 * 256 + l2))) (some st) false none now := by
    simp [ResourceRecord.from_binary, hdec]
  rw [hR]
  refine ⟨rfl, by simp [ResourceRecord.init], ?_, ?_⟩
  · simp [ResourceRecord.is_obsolete, ResourceRecord.init]
  · simp [DNSCache.get, DNSCache.put, ageRecords, ageRecord, ResourceRecord.init]

/-- Witness for C10 at the concrete wire fragment
`c0 0c | type 1 | class 1 | ttl 0 | rdlen 1 | rdata 09`. -/
theorem zero_wire_ttl_record_has_no_ttl_and_breaks_get_witness :
    (ResourceRecord.from_binary [192, 12, 0, 1, 0, 1, 0, 0, 0, 0, 0, 1, 9]
      2 "AN" 4).bad_data = false ∧
    (ResourceRecord.from_binary [192, 12, 0, 1, 0, 1, 0, 0, 0, 0, 0, 1, 9]
      2 "AN" 4).ttl = none ∧
    (ResourceRecord.from_binary [192, 12, 0, 1, 0, 1, 0, 0, 0, 0, 0, 1, 9]
      2 "AN" 4).is_obsolete 10 = false ∧
    DNSCache.get (DNSCache.put DNSCache.empty ⟨[3, 97, 0], 1, 1⟩
      [ResourceRecord.from_binary [192, 12, 0, 1, 0, 1, 0, 0, 0, 0, 0, 1, 9]
        2 "AN" 4]) ⟨[3, 97, 0], 1, 1⟩ 10 = none :=
  zero_wire_ttl_record_has_no_ttl_and_breaks_get
    [192, 12, 0, 1, 0, 1, 0, 0, 0, 0, 0, 1, 9] [9] 2 "AN" 4 10
    ⟨[3, 97, 0], 1, 1⟩ 0 1 0 1 0 1 rfl

/-- Counterexample for C7 as frozen: in the two-fragment record stream
`excessThenExact`, the FIRST fragment's computed record length (13) is shorter
than the fragment (15 bytes), yet the constructed queue keeps that fragment
whole and its trailing bytes `[7, 7]` appear nowhere in the queue — the
trim-and-push-back fixup is not applied to it. -/
theorem record_queue_tail_not_pushed_for_nonlast_fragment :
    fragmentsOf excessThenExact = [excessFragment, exactFragment] ∧
    (ResourceRecord.from_binary excessFragment 2 "AN" 0).length = some 13 ∧
    13 < excessFragment.length ∧
    recordQueue excessThenExact 0 = some [excessFragment, exactFragment] ∧
    excessFragment.drop 13 ∉ [excessFragment, exactFragment] ∧
    excessFragment.take 13 ∉ [excessFragment, exactFragment] := by
  decide

/-- C7 (status: corrected, amended form): the fixup applies only to the last
fragment of the split, once: when the last fragment's computed record length
`L` is shorter than the fragment, the queue is the earlier fragments unchanged
followed by the last fragment trimmed to `L` bytes and its trailing bytes as
one extra record. -/
theorem record_queue_fixup_applies_to_last_fragment (past : Bytes) (now : ℚ)
    (L : Nat) (hne : fragmentsOf past ≠ [])
    (hL : (ResourceRecord.from_binary ((fragmentsOf past).getLastD []) 2 "AN"
      now).length = some L)
    (hlt : L < ((fragmentsOf past).getLastD []).length) :
    recordQueue past now = some ((fragmentsOf past).dropLast ++
      [((fragmentsOf past).getLastD []).take L,
        ((fragmentsOf past).getLastD []).drop L]) := by
  have hne2 : (fragmentsOf past).isEmpty = false := by
    simpa [List.isEmpty_iff] using hne
  simp only [recordQueue, hne2, Bool.false_eq_true, if_false,
    List.getLastD_eq_getLast?]
  simp only [List.getLastD_eq_getLast?] at hL hlt
  rw [hL]
  simp only [if_pos hlt]

/-- Witness for C7 (amended) at the single excess-carrying fragment: the queue
becomes the trimmed record followed by the pushed-back tail `[7, 7]`. -/
theorem record_queue_fixup_applies_to_last_fragment_witness :
    recordQueue excessFragment 0 =
      some [[192, 12, 0, 1, 0, 1, 0, 0, 0, 100, 0, 1, 9], [7, 7]] := by
  have h := record_queue_fixup_applies_to_last_fragment excessFragment 0 13
    (by decide) (by decide) (by decide)
  rw [h]
  decide

/-- Helper: a bitwise or of two 16-bit values fits 16 bits. -/
theorem or_lt_65536 {a b : Nat} (ha : a < 65536) (hb : b < 65536) :
    a ||| b < 65536 := by
  have h := Nat.or_lt_two_pow (n := 16) (by omega : a < 2 ^ 16)
    (by omega : b < 2 ^ 16)
  omega

/-- C8 (status: confirmed): when the forward fails (error code 2 with empty or
any bytes after the timeout), `update_cache` returns the cache completely
unchanged together with no response bytes; and the error reply built for the
client is the serialized header carrying the request's id, `QR = 1`,
`RCODE = 2` and `ANCOUNT = NSCOUNT = ARCOUNT = 0` (`QDCOUNT` 0 as well),
followed by the question bytes. -/
theorem failed_forward_keeps_cache_and_replies_rcode2
    (cache : DNSCache) (resp : Bytes) (now : ℚ) (req : DNSPacket)
    (hid : req.header.id < 65536) (hop : req.header.opcode < 32)
    (hrd : req.header.recurs_desired < 256)
    (hqt : req.question.rec_type < 65536) (hqc : req.question.rec_class < 65536) :
    DNSServer.update_cache cache resp 2 now = some (cache, none, 2) ∧
    (DNSServer.build_error_header req).id = req.header.id ∧
    (DNSServer.build_error_header req).query = 1 ∧
    (DNSServer.build_error_header req).rcode = 2 ∧
    (DNSServer.build_error_header req).qdcount = 0 ∧
    (DNSServer.build_error_header req).ancount = 0 ∧
    (DNSServer.build_error_header req).nscount = 0 ∧
    (DNSServer.build_error_header req).arcount = 0 ∧
    ∃ hb, (DNSServer.build_error_header req).to_binary = some hb ∧
      DNSServer.build_error_message req =
        some (hb ++ (req.question.name ++ pack16 req.question.rec_type ++
          pack16 req.question.rec_class)) := by
  have hopt : (DNSServer.build_error_header req).option < 65536 := by
    simp only [DNSServer.build_error_header, Header.init]
    repeat apply or_lt_65536
    all_goals first
      | decide
      | (rw [Nat.shiftLeft_eq]; norm_num; omega)
  have hguard : (DNSServer.build_error_header req).id < 65536 ∧
      (DNSServer.build_error_header req).option < 65536 ∧
      (DNSServer.build_error_header req).qdcount < 65536 ∧
      (DNSServer.build_error_header req).ancount < 65536 ∧
      (DNSServer.build_error_header req).nscount < 65536 ∧
      (DNSServer.build_error_header req).arcount < 65536 :=
    ⟨hid, hopt, by simp [DNSServer.build_error_header, Header.init],
      by simp [DNSServer.build_error_header, Header.init],
      by simp [DNSServer.build_error_header, Header.init],
      by simp [DNSServer.build_error_header, Header.init]⟩
  have hhb : (DNSServer.build_error_header req).to_binary =
      some (pack16 (DNSServer.build_error_header req).id ++
        pack16 (DNSServer.build_error_header req).option ++
        pack16 (DNSServer.build_error_header req).qdcount ++
        pack16 (DNSServer.build_error_header req).ancount ++
        pack16 (DNSServer.build_error_header req).nscount ++
        pack16 (DNSServer.build_error_header req).arcount) := by
    rw [Header.to_binary, if_pos hguard]
  have hqb : req.question.to_binary =
      some (req.question.name ++ pack16 req.question.rec_type ++
        pack16 req.question.rec_class) := by
    rw [Question.to_binary, if_pos ⟨hqt, hqc⟩]
  refine ⟨by simp [DNSServer.update_cache], rfl, rfl, rfl, rfl, rfl, rfl, rfl,
    _, hhb, ?_⟩
  rw [DNSServer.build_error_message, hhb, hqb]

/-- Witness for C8 at the concrete request `errorReqPacket` against the empty
cache with the timed-out forward result (empty bytes, error code 2). -/
theorem failed_forward_keeps_cache_and_replies_rcode2_witness :
    DNSServer.update_cache DNSCache.empty [] 2 0 =
      some (DNSCache.empty, none, 2) ∧
    (DNSServer.build_error_header errorReqPacket).id = 4660 ∧
    (DNSServer.build_error_header errorReqPacket).query = 1 ∧
    (DNSServer.build_error_header errorReqPacket).rcode = 2 ∧
    (DNSServer.build_error_header errorReqPacket).qdcount = 0 ∧
    (DNSServer.build_error_header errorReqPacket).ancount = 0 ∧
    (DNSServer.build_error_header errorReqPacket).nscount = 0 ∧
    (DNSServer.build_error_header errorReqPacket).arcount = 0 ∧
    ∃ hb, (DNSServer.build_error_header errorReqPacket).to_binary = some hb ∧
      DNSServer.build_error_message errorReqPacket =
        some (hb ++ ([7, 101, 120, 97, 109, 112, 108, 101, 3, 99, 111, 109, 0] ++
          pack16 1 ++ pack16 1)) :=
  failed_forward_keeps_cache_and_replies_rcode2 DNSCache.empty [] 0
    errorReqPacket (by decide) (by decide) (by decide) (by decide) (by decide)

/-- C1 (status: code_bug): the claim `Header.from_binary (Header.to_binary H) = H`
for every well-formed header fails on the code because `from_binary` extracts
the one-bit flags with four-bit masks.  At the well-formed header with
`RD = 1`, `RA = 1` (and `id = 7`, `QDCOUNT = 1`, everything else 0) the decoder
returns `RA = 3` and `Z = 8`, so the round trip does not restore the header. -/
theorem header_decode_flag_masks_break_roundtrip :
    Header.to_binary (Header.init 7 0 0 0 1 0 1 0 0 0 1 0 0) =
      some [0, 7, 1, 128, 0, 1, 0, 0, 0, 0, 0, 0] ∧
    Header.from_binary [0, 7, 1, 128, 0, 1, 0, 0, 0, 0, 0, 0] =
      some (Header.init 7 0 0 0 1 0 1 0 0 0 3 8 0) ∧
    Header.from_binary [0, 7, 1, 128, 0, 1, 0, 0, 0, 0, 0, 0] ≠
      some (Header.init 7 0 0 0 1 0 1 0 0 0 1 0 0) := by
  refine ⟨by decide, by decide, by decide⟩

/-- C2 (status: code_bug): `Question.__eq__` ignores the qtype and qclass of
the other operand (it compares `self` against `self`), so equality reduces to
equality of the name bytes, and two questions for `example.com` with types A
(1) and AAAA (28) compare equal — against the claim.  The hash, however, does
separate them for every possible name hash, which is why they still occupy
distinct dictionary slots. -/
theorem question_eq_ignores_qtype_and_qclass :
    (∀ q1 q2 : Question, Question.eqPy q1 q2 = (q1.name == q2.name)) ∧
    Question.eqPy
      ⟨[7, 101, 120, 97, 109, 112, 108, 101, 3, 99, 111, 109, 0], 1, 1⟩
      ⟨[7, 101, 120, 97, 109, 112, 108, 101, 3, 99, 111, 109, 0], 28, 1⟩ = true ∧
    (∀ hname : Int,
      Question.hashPy hname
        ⟨[7, 101, 120, 97, 109, 112, 108, 101, 3, 99, 111, 109, 0], 1, 1⟩ ≠
      Question.hashPy hname
        ⟨[7, 101, 120, 97, 109, 112, 108, 101, 3, 99, 111, 109, 0], 28, 1⟩) := by
  refine ⟨?_, by decide, ?_⟩
  · intro q1 q2
    simp [Question.eqPy]
  · intro hname heq
    simp only [Question.hashPy] at heq
    have h3 : ((hname + (1 : Nat)) ^ 2 + (1 : Nat) : Int) ^ 3 =
        ((hname + (28 : Nat)) ^ 2 + (1 : Nat)) ^ 3 := by linarith
    have h2 : ((hname + (1 : Nat)) ^ 2 + (1 : Nat) : Int) =
        ((hname + (28 : Nat)) ^ 2 + (1 : Nat)) :=
      (Odd.strictMono_pow (by decide : Odd 3)).injective h3
    push_cast at h2
    have h1 : (54 : Int) * hname = -783 := by nlinarith
    omega

/-- C9 (status: confirmed): on any input shorter than 12 bytes the header
decoder reports a malformed-message error (in the source, the swallowed
`struct.error` leaves the locals unbound and the decoder raises) rather than
returning a header. -/
theorem header_from_binary_short_input_fails (data : Bytes)
    (h : data.length < 12) : Header.from_binary data = none := by
  simp [Header.from_binary, h]

/-- Witness for C9 at the concrete 3-byte input `[0, 1, 2]`. -/
theorem header_from_binary_short_input_fails_witness :
    ([0, 1, 2] : Bytes).length < 12 ∧ Header.from_binary [0, 1, 2] = none :=
  ⟨by decide, header_from_binary_short_input_fails [0, 1, 2] (by decide)⟩

/-- C3 (status: confirmed): for a non-bad record carrying its `ttl` and
`last_update` attributes, `is_obsolete` at time `now` is true exactly when the
residual TTL `ttl - (now - last_update)` is strictly below 2 seconds; a bad
record, which the constructor leaves without a `last_update` (and without a
`ttl`), is never obsolete. -/
theorem is_obsolete_iff_residual_ttl_below_two (r : ResourceRecord) (now : ℚ) :
    (∀ t lu : ℚ, r.bad_data = false → r.ttl = some t → r.last_update = some lu →
      (r.is_obsolete now = true ↔ t - (now - lu) < 2)) ∧
    (r.bad_data = true → r.last_update = none → r.is_obsolete now = false) := by
  constructor
  · intro t lu _ ht hlu
    simp [ResourceRecord.is_obsolete, ht, hlu]
  · intro _ hlu
    cases httl : r.ttl <;> simp [ResourceRecord.is_obsolete, httl, hlu]

/-- Witness for C3: a fresh record with `ttl = 5`, `last_update = 8` read at
`now = 10` (residual 3, not obsolete — the iff evaluates both sides), and a bad
record built by the constructor. -/
theorem is_obsolete_iff_residual_ttl_below_two_witness :
    ((ResourceRecord.init (some [192, 12]) (some 1) (some 1) (some 5) (some 1)
        (some [9]) (some "AN") false none 8).is_obsolete 10 = true ↔
      (5 : ℚ) - (10 - 8) < 2) ∧
    (ResourceRecord.init none none none none none none none true
        (some [1, 2, 3]) 8).is_obsolete 10 = false :=
  ⟨(is_obsolete_iff_residual_ttl_below_two _ 10).1 5 8 rfl
      (by norm_num [ResourceRecord.init]) rfl,
   (is_obsolete_iff_residual_ttl_below_two _ 10).2 rfl rfl⟩

/-- C6 (status: confirmed): whenever the ten fixed bytes after the owner name
are unavailable (the input is shorter than `len_name + 10`, so
`unpack('>HHIH', ...)` fails), `from_binary` yields a `bad_data` record and its
`to_binary` re-emits the original input bytes verbatim. -/
theorem bad_record_roundtrips_verbatim (data : Bytes) (len_name : Nat)
    (st : String) (now : ℚ) (h : data.length < len_name + 10) :
    (ResourceRecord.from_binary data len_name st now).bad_data = true ∧
    (ResourceRecord.from_binary data len_name st now).to_binary = some data := by
  have hrest : data.length - len_name < 10 := by omega
  simp [ResourceRecord.from_binary, hrest, ResourceRecord.init,
    ResourceRecord.to_binary]

/-- Witness for C6 at the concrete 3-byte fragment `[1, 2, 3]` with a 2-byte
owner name. -/
theorem bad_record_roundtrips_verbatim_witness :
    (ResourceRecord.from_binary [1, 2, 3] 2 "AN" 0).bad_data = true ∧
    (ResourceRecord.from_binary [1, 2, 3] 2 "AN" 0).to_binary = some [1, 2, 3] :=
  bad_record_roundtrips_verbatim [1, 2, 3] 2 "AN" 0 (by decide)

/-- C5 (status: corrected, amended form): for a well-formed non-bad record
(owner name of known length, `rdlen = len(rdata)`, fields in `struct` range)
whose floored TTL is at least 1, the emitted bytes are exactly
`bin_name ++ pack16 type ++ pack16 class ++ pack32 ⌊ttl⌋ ++ pack16 rdlen ++
rdata` (the rdlength written as stored), and decoding them back with the same
name length yields a record agreeing on name bytes, type, class, rdlength,
rdata and section, with TTL equal to `⌊ttl⌋`.  The amendment: when
`⌊ttl⌋ = 0` the decoded record instead has no TTL attribute at all (see the
counterexample). -/
theorem record_roundtrip_modulo_ttl_floor (nm rd : Bytes) (t c rl X : Nat)
    (tt now now2 : ℚ) (sec sec2 : String)
    (ht : t < 65536) (hc : c < 65536) (hrl : rl < 65536) (hlen : rl = rd.length)
    (htt0 : 0 ≤ tt) (hX : (X : Int) = Int.floor tt) (hX1 : 1 ≤ X)
    (hX2 : X < 4294967296) :
    (ResourceRecord.init (some nm) (some t) (some c) (some tt) (some rl)
        (some rd) (some sec) false none now).to_binary =
      some (nm ++ (pack16 t ++ pack16 c ++ pack32 X ++ pack16 rl ++ rd)) ∧
    ResourceRecord.from_binary
        (nm ++ (pack16 t ++ pack16 c ++ pack32 X ++ pack16 rl ++ rd))
        nm.length sec2 now2 =
      ResourceRecord.init (some nm) (some t) (some c) (some (X : ℚ)) (some rl)
        (some rd) (some sec2) false none now2 := by
  have htt1 : (1 : ℚ) ≤ tt := by
    have h1 : (1 : ℤ) ≤ Int.floor tt := by rw [← hX]; exact_mod_cast hX1
    exact_mod_cast Int.le_floor.mp h1
  have httne : ¬ tt = 0 := by intro h; rw [h] at htt1; norm_num at htt1
  have hpy : pyInt tt = (X : ℤ) := by rw [pyInt, if_pos htt0, hX]
  have hpyn : (pyInt tt).toNat = X := by rw [hpy]; omega
  have hguard : 0 ≤ pyInt tt ∧ pyInt tt < 4294967296 ∧ t < 65536 ∧ c < 65536 ∧
      rl < 65536 := by
    refine ⟨by rw [hpy]; positivity, by rw [hpy]; exact_mod_cast hX2, ht, hc, hrl⟩
  have hrest2 : pack16 t ++ pack16 c ++ pack32 X ++ pack16 rl ++ rd
      = t / 256 :: t % 256 :: c / 256 :: c % 256 :: X / 16777216 ::
        X / 65536 % 256 :: X / 256 % 256 :: X % 256 :: rl / 256 :: rl % 256 :: rd := by
    simp [pack16, pack32]
  have e1 : t / 256 * 256 + t % 256 = t := by omega
  have e2 : c / 256 * 256 + c % 256 = c := by omega
  have e3 : rl / 256 * 256 + rl % 256 = rl := by omega
  have e4 : ((X / 16777216 * 256 + X / 65536 % 256) * 256 + X / 256 % 256) * 256 +
      X % 256 = X := by omega
  constructor
  · simp only [ResourceRecord.to_binary, ResourceRecord.init, if_neg httne,
      Option.some_bind, Bool.false_eq_true, if_false, if_pos hguard, hpyn]
    simp [List.append_assoc]
  · rw [hrest2]
    simp only [ResourceRecord.from_binary, ResourceRecord.init,
      List.drop_left, List.take_left, List.length_cons]
    rw [if_neg (by omega)]
    simp only [List.getD_cons_zero, List.getD_cons_succ, List.drop_succ_cons,
      List.drop_zero, e1, e2, e3, e4]
    have htake : List.take rl rd = rd := by rw [hlen]; exact List.take_length rd
    simp [htake]

/-- Witness for C5 (amended) at a concrete record: owner name `c0 0c`, type 1,
class 1, ttl 100, rdlen 1, rdata `09`, encoded at time 0 and decoded at
time 3. -/
theorem record_roundtrip_modulo_ttl_floor_witness :
    (ResourceRecord.init (some [192, 12]) (some 1) (some 1) (some 100) (some 1)
        (some [9]) (some "AN") false none 0).to_binary =
      some ([192, 12] ++ (pack16 1 ++ pack16 1 ++ pack32 100 ++ pack16 1 ++ [9])) ∧
    ResourceRecord.from_binary
        ([192, 12] ++ (pack16 1 ++ pack16 1 ++ pack32 100 ++ pack16 1 ++ [9]))
        2 "AN" 3 =
      ResourceRecord.init (some [192, 12]) (some 1) (some 1)
        (some ((100 : ℕ) : ℚ)) (some 1) (some [9]) (some "AN") false none 3 :=
  record_roundtrip_modulo_ttl_floor [192, 12] [9] 1 1 1 100 100 0 3 "AN" "AN"
    (by decide) (by decide) (by decide) (by decide) (by norm_num)
    (by norm_num) (by decide) (by decide)

/-- Counterexample for C5 as frozen: the non-bad record with owner name
`0xC0 0x0C`, type 1, class 1, `ttl = 1/2` (well-formed: `rdlen = len(rdata) =
1`) encodes with a floored TTL word of 0, and decoding the encoding produces a
record whose `ttl` attribute does not exist (`none`) — not a record whose TTL
equals `floor(1/2) = 0`. -/
theorem record_roundtrip_fails_at_zero_floored_ttl :
    (ResourceRecord.init (some [192, 12]) (some 1) (some 1) (some (1/2)) (some 1)
        (some [9]) (some "AN") false none 0).ttl = some (1/2) ∧
    (ResourceRecord.init (some [192, 12]) (some 1) (some 1) (some (1/2)) (some 1)
        (some [9]) (some "AN") false none 0).to_binary =
      some [192, 12, 0, 1, 0, 1, 0, 0, 0, 0, 0, 1, 9] ∧
    Int.floor ((1 : ℚ)/2) = 0 ∧
    (ResourceRecord.from_binary [192, 12, 0, 1, 0, 1, 0, 0, 0, 0, 0, 1, 9] 2
        "AN" 0).ttl = none := by
  have hfl : Int.floor ((1 : ℚ)/2) = 0 := by
    rw [Int.floor_eq_iff]
    norm_num
  have hpy : pyInt (1/2) = 0 := by
    rw [pyInt, if_pos (by norm_num)]
    exact hfl
  refine ⟨by norm_num [ResourceRecord.init], ?_, hfl, ?_⟩
  · simp only [ResourceRecord.to_binary, ResourceRecord.init, Option.some_bind]
    norm_num [hpy, pack16, pack32]
  · simp only [ResourceRecord.from_binary, ResourceRecord.init]
    norm_num

end DnsCache
